import Mathlib

/-!
Verification development for the task/scheduler/syscall core of the sos2
kernel (src/kern/task.rs, src/kern/syscall.rs, src/kern/interrupts/timer.rs).

The Rust code is shallowly embedded: kernel global state relevant to the
scheduler (the `CURRENT_ID` atomic, the task list allocation counter, the
per-task lock availability and the task currently executing on the CPU) is
a record `KernState`; each run of `sched` or `timer_handler` is a function
from `KernState` to `Except String (KernState × List Event)` where the
`Except.error` branch models a Rust panic (failed `assert!` / `expect`) and
the event list records, in program order, the observable actions the body
performs (atomic loads/stores with their orderings, lock acquisition
attempts, log output, the CR3 write and the context switch).
-/

namespace Sos2

/-- Log levels of the console `printk!` macro (only the ones used here). -/
inductive LogLevel where
  | Debug
  | Info
  | Critical
  deriving DecidableEq

/-- Atomic memory orderings used by the embedded code
(`core::sync::atomic::Ordering`). -/
inductive MemOrder where
  | seqCst
  | release
  | acquire
  deriving DecidableEq

/-- Observable actions of the embedded kernel code, recorded in program
order.  `loadCurrentId`/`storeCurrentId` are the accesses to the atomic
`CURRENT_ID`; `tryReadLock`/`tryWriteLock` record a per-task lock attempt
and whether it succeeded; `fetchAddTicks` is the atomic increment of
`TIMER_TICKS`; `picEoi` is the end-of-interrupt acknowledgement;
`setRsp`, `enableInterrupts`, `disableInterrupts`, `consoleWith` model the
corresponding steps of the syscall path. -/
inductive Event where
  | picEoi (irq : Nat)
  | fetchAddTicks (k : Nat) (ord : MemOrder)
  | loadCurrentId (ord : MemOrder) (v : Int)
  | storeCurrentId (ord : MemOrder) (v : Int)
  | tryReadLock (id : Int) (ok : Bool)
  | tryWriteLock (id : Int) (ok : Bool)
  | printk (lvl : LogLevel) (msg : String)
  | cr3Set (v : Nat)
  | switchTo (cur nxt : Int)
  | setRsp (v : Nat)
  | enableInterrupts
  | disableInterrupts
  | consoleWith (line col : Nat)
  deriving DecidableEq

/-- The part of a `Task` record the scheduler reads: its id (`pid`) and the
physical root of its page tables (`ctx.cr3`). -/
structure KTask where
  pid : Int
  cr3 : Nat
  deriving DecidableEq

/-- Kernel global state seen by `sched`/`timer_handler`.  `iflag` is the
CPU IF flag on entry; `current_id` is the `CURRENT_ID` atomic; `next_id`
is `TaskList.next_id`; `tasks` holds the allocated task records (the
`BTreeMap` entries); `readBlocked`/`writeBlocked` list the task ids whose
per-task `try_read`/`try_write` would fail at this instant (the lock is
held elsewhere); `running` is the task actually executing on the CPU;
`ticks` is the `TIMER_TICKS` atomic counter. -/
structure KernState where
  iflag : Bool
  current_id : Int
  next_id : Int
  tasks : List KTask
  readBlocked : List Int
  writeBlocked : List Int
  running : Int
  ticks : Nat
  deriving DecidableEq

/-- `TaskList::get_task`: lookup of a task by id in the map. -/
def getTask (ts : List KTask) (i : Int) : Option KTask :=
  ts.find? (fun t => t.pid == i)

/-- The round-robin successor computed at task.rs line 590:
`nid = if id + 1 >= tasks.next_id { 1 } else { id + 1 }`. -/
def schedNid (s : KernState) : Int :=
  if s.next_id ≤ s.current_id + 1 then 1 else s.current_id + 1

/-- `sched` (task.rs lines 576-628).  Asserts IF clear; returns at once if
`CURRENT_ID` is 0; otherwise computes the round-robin successor `nid`,
stores it into `CURRENT_ID` with release ordering, asserts `id ≠ nid`,
looks both tasks up, try-read-locks the current task (panicking on
failure) and try-write-locks the next one; if that fails it logs at
Critical and skips the switch, otherwise it writes CR3 when the address
spaces differ and performs `switch_to`. -/
def sched (s : KernState) : Except String (KernState × List Event) :=
  if s.iflag then Except.error "sched: should disable IF" else
  if s.current_id = 0 then
    Except.ok (s, [Event.loadCurrentId MemOrder.seqCst s.current_id])
  else
  if s.current_id = schedNid s then
    Except.error "sched: id should not be equal to nid" else
  match getTask s.tasks s.current_id with
  | none => Except.error "sched: get current task error"
  | some cur =>
    if s.readBlocked.contains s.current_id then
      Except.error "sched: current lock failed" else
    if cur.pid ≠ s.current_id then
      Except.error "sched: current pid assertion failed" else
    match getTask s.tasks (schedNid s) with
    | none => Except.error "sched: get next task error"
    | some nxt =>
      if s.writeBlocked.contains (schedNid s) then
        Except.ok ({ s with current_id := schedNid s },
          [Event.loadCurrentId MemOrder.seqCst s.current_id,
           Event.storeCurrentId MemOrder.release (schedNid s),
           Event.tryReadLock s.current_id true,
           Event.tryWriteLock (schedNid s) false,
           Event.printk LogLevel.Critical
             ("sched: next(" ++ toString (schedNid s) ++ ") lock failed\n\r")])
      else
        if nxt.pid ≠ schedNid s then
          Except.error "sched: next pid assertion failed" else
        Except.ok ({ s with current_id := schedNid s, running := schedNid s },
          [Event.loadCurrentId MemOrder.seqCst s.current_id,
           Event.storeCurrentId MemOrder.release (schedNid s),
           Event.tryReadLock s.current_id true,
           Event.tryWriteLock (schedNid s) true] ++
          (if cur.cr3 ≠ nxt.cr3 then [Event.cr3Set nxt.cr3] else []) ++
          [Event.switchTo s.current_id (schedNid s)])

/-- `timer_handler` (timer.rs lines 49-63): acknowledge the PIC with EOI
for IRQ 0, atomically add 1 to `TIMER_TICKS` with SeqCst ordering, then
invoke `sched`. -/
def timer_handler (s : KernState) : Except String (KernState × List Event) :=
  match sched { s with ticks := s.ticks + 1 } with
  | Except.error e => Except.error e
  | Except.ok (s2, tr) =>
      Except.ok (s2, [Event.picEoi 0, Event.fetchAddTicks 1 MemOrder.seqCst] ++ tr)

theorem getTask_pid {ts : List KTask} {i : Int} {t : KTask}
    (h : getTask ts i = some t) : t.pid = i := by
  have := List.find?_some h
  simpa using this

/-- `MAX_TASK` (task.rs line 155): compile-time bound on task ids. -/
def MAX_TASK : Int := 64

/-- `TaskState` (task.rs lines 22-29). -/
inductive TaskState where
  | Unused
  | Created
  | Ready
  | Running
  | Sleep
  | Zombie
  deriving DecidableEq

/-- `Context` (task.rs lines 34-44): the callee-saved scheduler context of
a task; all fields are machine words. -/
structure Context where
  rflags : Nat
  cr3 : Nat
  rbp : Nat
  rbx : Nat
  rsp : Nat
  r12 : Nat
  r13 : Nat
  r14 : Nat
  r15 : Nat
  deriving DecidableEq

/-- `Context::new` (task.rs lines 47-59): the all-zero context. -/
def Context.new : Context :=
  { rflags := 0, cr3 := 0, rbp := 0, rbx := 0, rsp := 0,
    r12 := 0, r13 := 0, r14 := 0, r15 := 0 }

/-- `TLSSegment` (task.rs lines 104-107): `repr(C, packed)` record of two
`usize` fields, `user_rsp` at byte offset 0 and `kern_rsp` at byte
offset 8; its size is 16 bytes. -/
structure TLSSegment where
  user_rsp : Nat
  kern_rsp : Nat
  deriving DecidableEq

/-- Byte size of `TLSSegment` (two `usize` fields, packed). -/
def tlsSegmentSize : Nat := 16

/-- Modelled from the spec: `idt::ExceptionStackFrame` is declared in
src/kern/interrupts/idt.rs, which is not among the sources here; its five
`u64` fields `rip, cs, rflags, old_rsp, old_ss` are fixed by its
construction site in `ret_to_userspace` (task.rs lines 534-540) and by
spec section 4.D; its byte size is 40. -/
structure ExceptionStackFrame where
  rip : Nat
  cs : Nat
  rflags : Nat
  old_rsp : Nat
  old_ss : Nat
  deriving DecidableEq

/-- Byte size of `ExceptionStackFrame` (five `u64` fields). -/
def exceptionStackFrameSize : Nat := 40

/-- Byte size of `usize` on x86_64. -/
def usizeSize : Nat := 8

/-- One 8-byte store into word-granular kernel-stack memory, modelling a
single `*ptr = v` write of `alloc_kernel_task`. -/
def store (m : Nat → Nat) (a v : Nat) : Nat → Nat :=
  fun x => if x = a then v else m x

/-- The fields of `Task` (task.rs lines 127-137) that task allocation
fills in and that the claims mention; the memory-manager handles
(`cr3`, `kern_stack`, the VMAs) are summarised by the word values stored
into `ctx`. -/
structure TaskRec where
  pid : Int
  ppid : Int
  name : String
  state : TaskState
  ctx : Context
  deriving DecidableEq

/-- The allocation-relevant part of `TaskList` (task.rs lines 159-162):
the monotonic `next_id` counter and the key set of the task map. -/
structure TaskListSt where
  next_id : Int
  pids : List Int
  deriving DecidableEq

/-- `TaskList::alloc_kernel_task` (task.rs lines 189-238).  Inputs that
collaborators provide are parameters: `kern_rsp` is the top address of
the freshly heap-allocated 8 KiB kernel stack, `kernCr3` the physical
root of the kernel page tables (`mm.kernelPML4Table`), `kern_ds` and
`kern_cs` the selector values `KERN_DS_SEL.0` and `KERN_CS_SEL.0`, and
`startTaskAddr` the address of `start_task`.  Takes `pid = next_id`,
asserts `next_id < MAX_TASK` (panic on overflow), builds the task with
`ppid = 0`, state `Created`, `rflags = 0x0202`,
`rsp = kern_rsp - 16 - 40 - 8`, primes the stack top with the
`TLSSegment` and the six bootstrap words below it, inserts the task and
increments `next_id`.  Returns the updated list, the task record and the
primed stack memory. -/
def alloc_kernel_task (tl : TaskListSt) (name : String) (rip : Nat)
    (kern_rsp kernCr3 kern_ds kern_cs startTaskAddr : Nat) :
    Except String (TaskListSt × TaskRec × (Nat → Nat)) :=
  if tl.next_id < MAX_TASK then
    Except.ok
      ({ next_id := tl.next_id + 1,
         pids := if tl.pids.contains tl.next_id then tl.pids
                 else tl.pids ++ [tl.next_id] },
       { pid := tl.next_id, ppid := 0, name := name, state := TaskState.Created,
         ctx := { Context.new with
                    rflags := 0x0202
                    cr3 := kernCr3
                    rsp := kern_rsp - tlsSegmentSize - exceptionStackFrameSize
                             - usizeSize } },
       store (store (store (store (store (store (store (store (fun _ => 0)
         (kern_rsp - tlsSegmentSize) 0)
         (kern_rsp - tlsSegmentSize + 8) (kern_rsp - tlsSegmentSize))
         (kern_rsp - tlsSegmentSize - 8) kern_ds)
         (kern_rsp - tlsSegmentSize - 16) (kern_rsp - tlsSegmentSize))
         (kern_rsp - tlsSegmentSize - 24) 0x0202)
         (kern_rsp - tlsSegmentSize - 32) kern_cs)
         (kern_rsp - tlsSegmentSize - 40) rip)
         (kern_rsp - tlsSegmentSize - 48) startTaskAddr)
  else Except.error "task id exceeds maximum boundary"

/-- `TaskList::alloc_task` (task.rs lines 241-324): user-task allocation.
The paging work (fresh address space, user stack and code VMAs, the 4 KiB
code copy from `rip`) goes through external collaborators and is
summarised by `userCr3` (root of the space `create_address_space`
returned), `kern_rsp` (top of the fresh 8 KiB kernel stack) and
`userStackEnd` (`KERNEL_MAPPING.UserStack.end`).  Same id discipline as
`alloc_kernel_task`; `ctx.rsp = kern_rsp - 16` (= tlsbase) and only the
`TLSSegment` is written, with `user_rsp = userStackEnd + 1`. -/
def alloc_task (tl : TaskListSt) (name : String) (parent : Int) (rip : Nat)
    (kern_rsp userCr3 userStackEnd : Nat) :
    Except String (TaskListSt × TaskRec × (Nat → Nat)) :=
  if tl.next_id < MAX_TASK then
    Except.ok
      ({ next_id := tl.next_id + 1,
         pids := if tl.pids.contains tl.next_id then tl.pids
                 else tl.pids ++ [tl.next_id] },
       { pid := tl.next_id, ppid := parent, name := name,
         state := TaskState.Created,
         ctx := { Context.new with
                    rflags := 0x0202
                    cr3 := userCr3
                    rsp := kern_rsp - tlsSegmentSize } },
       store (store (fun _ => 0)
         (kern_rsp - tlsSegmentSize) (userStackEnd + 1))
         (kern_rsp - tlsSegmentSize + 8) (kern_rsp - tlsSegmentSize))
  else Except.error "task id exceeds maximum boundary"

/-- The tail of `switch_to` (task.rs lines 506-519) leaves RSP at
`next.ctx.rsp`, and the function's `ret` pops the word at RSP into RIP;
`start_task` (task.rs lines 522-527) then executes `iretq`, which pops
RIP, CS, RFLAGS, RSP and SS from the five words above.  Given the primed
stack memory and the initial RSP, this returns the popped return address
and the synthetic interrupt frame `iretq` consumes. -/
def retThenIretq (mem : Nat → Nat) (rsp : Nat) : Nat × ExceptionStackFrame :=
  (mem rsp,
   { rip := mem (rsp + 8), cs := mem (rsp + 16), rflags := mem (rsp + 24),
     old_rsp := mem (rsp + 32), old_ss := mem (rsp + 40) })

/-- Register values captured at the top of `syscall_entry` (syscall.rs
lines 21-35): RAX and the six argument registers, RCX (which the
`syscall` instruction loaded with the user return RIP), R11 (the user
RFLAGS), and RBP, which at the capture point equals the original user RSP
minus 8 because of the function prologue (comment at syscall.rs line
24). -/
structure EntryRegs where
  rax : Nat
  rdi : Nat
  rsi : Nat
  rdx : Nat
  r8 : Nat
  r9 : Nat
  r10 : Nat
  rcx : Nat
  r11 : Nat
  rbp : Nat
  deriving DecidableEq

/-- Modelled from the spec: the declaration of `SyscallContext` and the
`Task.sysctx` field live in a part of task.rs not among the sources here;
the field list is fixed by the construction site at syscall.rs lines
47-49 and spec section 3. -/
structure SyscallContext where
  rip : Nat
  rax : Nat
  rdi : Nat
  rsi : Nat
  rdx : Nat
  r8 : Nat
  r9 : Nat
  r10 : Nat
  rflags : Nat
  rsp : Nat
  deriving DecidableEq

/-- The capture step of `syscall_entry` (syscall.rs lines 21-49):
RCX→rip, R11→rflags, RBP+8→rsp (the `rsp += 8` at line 46 compensates the
prologue), the number and argument registers verbatim; the result is
stored into `task.sysctx`. -/
def captureSysctx (r : EntryRegs) : SyscallContext :=
  { rip := r.rcx, rax := r.rax, rdi := r.rdi, rsi := r.rsi, rdx := r.rdx,
    r8 := r.r8, r9 := r.r9, r10 := r.r10, rflags := r.r11, rsp := r.rbp + 8 }

/-- User-visible register file right after `sysret` returns to user
mode. -/
structure RetRegs where
  rax : Nat
  rdi : Nat
  rsi : Nat
  rdx : Nat
  r8 : Nat
  r9 : Nat
  r10 : Nat
  rcx : Nat
  r11 : Nat
  rbx : Nat
  rbp : Nat
  rsp : Nat
  rip : Nat
  rflags : Nat
  deriving DecidableEq

/-- `_syscall_return` (syscall.rs lines 63-114): reload the saved
`sysctx` into registers — R11 ← rflags, RCX ← rip, RBX ← user rsp, the
number/argument registers from their slots — then
`mov rbp,rbx; mov rsp,rbx; sysretq`, and `sysret` sets the user RIP from
RCX and the user RFLAGS from R11. -/
def syscall_return (ctx : SyscallContext) : RetRegs :=
  { rax := ctx.rax, rdi := ctx.rdi, rsi := ctx.rsi, rdx := ctx.rdx,
    r8 := ctx.r8, r9 := ctx.r9, r10 := ctx.r10,
    rcx := ctx.rip, r11 := ctx.rflags, rbx := ctx.rsp,
    rbp := ctx.rsp, rsp := ctx.rsp, rip := ctx.rip, rflags := ctx.rflags }

/-- `sys_write` (syscall.rs lines 116-129): reads the current task's
`sysctx.rax` and `CURRENT_ID`, then logs on tty line 19, column 0.
Returns its event trace; it does not mutate `sysctx`. -/
def sys_write (current_id : Int) (sysctx : SyscallContext) : List Event :=
  [Event.consoleWith 19 0,
   Event.printk LogLevel.Info
     ("sys_write: thread " ++ toString current_id ++ ": rax "
        ++ toString sysctx.rax ++ "\n\r")]

/-- `syscall_entry` (syscall.rs lines 8-61): capture the caller registers
into `task.sysctx`, read `kern_rsp` (the current task's kernel-stack
top), switch RSP to it, enable interrupts, run `sys_write`
(unconditionally — the body contains no dispatch on the syscall number),
disable interrupts, and fall into `_syscall_return`.  Returns the stored
`sysctx`, the event trace from the RSP switch onward, and the user
register file after `sysret`. -/
def syscall_entry (kern_rsp : Nat) (current_id : Int) (r : EntryRegs) :
    SyscallContext × List Event × RetRegs :=
  (captureSysctx r,
   [Event.setRsp kern_rsp, Event.enableInterrupts] ++
     sys_write current_id (captureSysctx r) ++ [Event.disableInterrupts],
   syscall_return (captureSysctx r))

/-! Helper lemmas shared by the claim theorems. -/

theorem schedNid_eq (s : KernState) :
    schedNid s = if s.current_id + 1 < s.next_id then s.current_id + 1 else 1 := by
  unfold schedNid
  rcases lt_or_ge (s.current_id + 1) s.next_id with h | h
  · rw [if_neg (not_le.mpr h), if_pos h]
  · rw [if_pos h, if_neg (not_lt.mpr h)]

theorem sched_ticks {s s2 : KernState} {tr : List Event}
    (h : sched s = Except.ok (s2, tr)) : s2.ticks = s.ticks := by
  unfold sched at h
  repeat' split at h
  all_goals
    first
      | exact Except.noConfusion h
      | { injection h with h0
          injection h0 with h1 h2
          subst h1
          rfl }

/-! Concrete states used by the witnesses and counterexamples. -/

/-- Scenario for C10: the sole allocated task (id 1) is current and the
allocation counter `next_id` is 2. -/
def soloState : KernState :=
  { iflag := false, current_id := 1, next_id := 2,
    tasks := [{ pid := 1, cr3 := 100 }],
    readBlocked := [], writeBlocked := [], running := 1, ticks := 0 }

/-- Two tasks sharing the kernel address space, task 1 current, no lock
contention: `sched` completes a switch to task 2. -/
def twoTaskState : KernState :=
  { iflag := false, current_id := 1, next_id := 3,
    tasks := [{ pid := 1, cr3 := 100 }, { pid := 2, cr3 := 100 }],
    readBlocked := [], writeBlocked := [], running := 1, ticks := 0 }

/-- Two tasks with distinct address spaces, the write lock of task 2 held
elsewhere: `sched` must skip the switch. -/
def contendedState : KernState :=
  { iflag := false, current_id := 1, next_id := 3,
    tasks := [{ pid := 1, cr3 := 100 }, { pid := 2, cr3 := 200 }],
    readBlocked := [], writeBlocked := [2], running := 1, ticks := 7 }

/-- Two tasks with distinct address spaces, no contention, used by the
timer-handler witness. -/
def timerState : KernState :=
  { iflag := false, current_id := 2, next_id := 3,
    tasks := [{ pid := 1, cr3 := 100 }, { pid := 2, cr3 := 200 }],
    readBlocked := [], writeBlocked := [], running := 2, ticks := 41 }

/-- C10: if `sched` runs when the current id is 1 and the allocation
counter `next_id` is 2 (exactly one task allocated, and it is current),
the computed next id wraps to 1 and equals the current id, so `sched`
panics at its `assert_ne!(id, nid)` assertion; no non-panicking outcome
(skipping the switch or re-running the sole task) exists. -/
theorem C10_sched_sole_task_panics :
    sched soloState = Except.error "sched: id should not be equal to nid" ∧
    ∀ r, sched soloState ≠ Except.ok r := by
  have he : sched soloState = Except.error "sched: id should not be equal to nid" := by
    rfl
  exact ⟨he, fun r h => by rw [he] at h; exact Except.noConfusion h⟩

/-- C6 counterexample: a kernel step executed with the IF flag clear that
does change `CURRENT_ID`: on `twoTaskState` (IF clear) `sched` completes
and moves `CURRENT_ID` from 1 to 2. -/
theorem C6_counterexample :
    twoTaskState.iflag = false ∧
    sched twoTaskState =
      Except.ok ({ twoTaskState with current_id := 2, running := 2 },
        [Event.loadCurrentId MemOrder.seqCst 1,
         Event.storeCurrentId MemOrder.release 2,
         Event.tryReadLock 1 true, Event.tryWriteLock 2 true,
         Event.switchTo 1 2]) ∧
    ({ twoTaskState with current_id := 2, running := 2 } : KernState).current_id
      ≠ twoTaskState.current_id := by
  exact ⟨rfl, rfl, by decide⟩

/-- C6 (amended): the code inverts the spec invariant — `CURRENT_ID`
changes only while interrupts are disabled.  Every completed `sched`
invocation that changes `CURRENT_ID` executes with the IF flag clear:
invoked with IF set, `sched` panics on its flags assertion before
touching `CURRENT_ID`. -/
theorem C6_current_id_changes_only_with_if_clear
    (s s2 : KernState) (tr : List Event)
    (hok : sched s = Except.ok (s2, tr))
    (hch : s2.current_id ≠ s.current_id) :
    s.iflag = false := by
  cases hs : s.iflag with
  | false => rfl
  | true =>
      unfold sched at hok
      rw [hs] at hok
      simp at hok

/-- Witness for the amended C6 theorem at `twoTaskState`. -/
theorem C6_amended_witness : twoTaskState.iflag = false :=
  C6_current_id_changes_only_with_if_clear twoTaskState
    { twoTaskState with current_id := 2, running := 2 }
    [Event.loadCurrentId MemOrder.seqCst 1,
     Event.storeCurrentId MemOrder.release 2,
     Event.tryReadLock 1 true, Event.tryWriteLock 2 true,
     Event.switchTo 1 2]
    rfl (by decide)

/-- C1: on every invocation of `sched` with the IF precondition met: if
`CURRENT_ID` is 0 it returns immediately without changing any state;
otherwise, for every completing run, the new `CURRENT_ID` is `id + 1`
when `id + 1` is below the allocation counter `next_id` and 1 otherwise,
and the trace stores that value into `CURRENT_ID` with release ordering
as its second event — before everything else, in particular before any
switch. -/
theorem C1_sched_round_robin_and_release_store
    (s : KernState) (hIF : s.iflag = false) :
    (s.current_id = 0 →
      sched s = Except.ok (s, [Event.loadCurrentId MemOrder.seqCst 0])) ∧
    (∀ s2 tr, s.current_id ≠ 0 → sched s = Except.ok (s2, tr) →
      s2.current_id =
        (if s.current_id + 1 < s.next_id then s.current_id + 1 else 1) ∧
      ∃ rest, tr = Event.loadCurrentId MemOrder.seqCst s.current_id ::
          Event.storeCurrentId MemOrder.release s2.current_id :: rest) := by
  constructor
  · intro h0
    simp [sched, hIF, h0]
  · intro s2 tr h0 hok
    rw [← schedNid_eq]
    unfold sched at hok
    rw [if_neg (by simp [hIF]), if_neg h0] at hok
    by_cases hne : s.current_id = schedNid s
    · rw [if_pos hne] at hok
      exact Except.noConfusion hok
    rw [if_neg hne] at hok
    rcases hcur : getTask s.tasks s.current_id with _ | cur
    · simp only [hcur] at hok
      exact Except.noConfusion hok
    · simp only [hcur] at hok
      by_cases hrb : s.readBlocked.contains s.current_id = true
      · rw [if_pos hrb] at hok
        exact Except.noConfusion hok
      rw [if_neg hrb] at hok
      rw [if_neg (by simp [getTask_pid hcur])] at hok
      rcases hnxt : getTask s.tasks (schedNid s) with _ | nxt
      · simp only [hnxt] at hok
        exact Except.noConfusion hok
      · simp only [hnxt] at hok
        by_cases hwb : s.writeBlocked.contains (schedNid s) = true
        · rw [if_pos hwb] at hok
          injection hok with h0'
          injection h0' with h1 h2
          subst h1
          subst h2
          exact ⟨rfl, _, rfl⟩
        · rw [if_neg hwb] at hok
          rw [if_neg (by simp [getTask_pid hnxt])] at hok
          injection hok with h0'
          injection h0' with h1 h2
          subst h1
          subst h2
          exact ⟨rfl, _, rfl⟩

/-- Witness for C1 at `twoTaskState` (IF clear). -/
theorem C1_witness :
    (twoTaskState.current_id = 0 →
      sched twoTaskState =
        Except.ok (twoTaskState, [Event.loadCurrentId MemOrder.seqCst 0])) ∧
    (∀ s2 tr, twoTaskState.current_id ≠ 0 →
      sched twoTaskState = Except.ok (s2, tr) →
      s2.current_id = (if twoTaskState.current_id + 1 < twoTaskState.next_id
        then twoTaskState.current_id + 1 else 1) ∧
      ∃ rest, tr =
        Event.loadCurrentId MemOrder.seqCst twoTaskState.current_id ::
        Event.storeCurrentId MemOrder.release s2.current_id :: rest) :=
  C1_sched_round_robin_and_release_store twoTaskState rfl

/-- C3: when the read lock on the current task is acquired but the
try-write lock on the next task fails, the switch is skipped for this
tick: `sched` completes, a Critical-level message is logged, and the
trace contains neither a CR3 write nor a `switch_to`. -/
theorem C3_next_lock_contention_skips_switch
    (s : KernState) (cur nxt : KTask)
    (hIF : s.iflag = false) (h0 : s.current_id ≠ 0)
    (hne : s.current_id ≠ schedNid s)
    (hcur : getTask s.tasks s.current_id = some cur)
    (hread : s.readBlocked.contains s.current_id = false)
    (hnxt : getTask s.tasks (schedNid s) = some nxt)
    (hwrite : s.writeBlocked.contains (schedNid s) = true) :
    sched s = Except.ok ({ s with current_id := schedNid s },
      [Event.loadCurrentId MemOrder.seqCst s.current_id,
       Event.storeCurrentId MemOrder.release (schedNid s),
       Event.tryReadLock s.current_id true,
       Event.tryWriteLock (schedNid s) false,
       Event.printk LogLevel.Critical
         ("sched: next(" ++ toString (schedNid s) ++ ") lock failed\n\r")]) ∧
    (∀ s2 tr, sched s = Except.ok (s2, tr) →
      Event.printk LogLevel.Critical
        ("sched: next(" ++ toString (schedNid s) ++ ") lock failed\n\r") ∈ tr ∧
      (∀ v, Event.cr3Set v ∉ tr) ∧
      (∀ a b, Event.switchTo a b ∉ tr)) := by
  have heq : sched s = Except.ok ({ s with current_id := schedNid s },
      [Event.loadCurrentId MemOrder.seqCst s.current_id,
       Event.storeCurrentId MemOrder.release (schedNid s),
       Event.tryReadLock s.current_id true,
       Event.tryWriteLock (schedNid s) false,
       Event.printk LogLevel.Critical
         ("sched: next(" ++ toString (schedNid s) ++ ") lock failed\n\r")]) := by
    unfold sched
    rw [if_neg (by simp [hIF]), if_neg h0, if_neg hne]
    simp only [hcur]
    rw [if_neg (by rw [hread]; simp), if_neg (by simp [getTask_pid hcur])]
    simp only [hnxt]
    rw [if_pos hwrite]
  refine ⟨heq, ?_⟩
  intro s2 tr h
  rw [heq] at h
  injection h with h0'
  injection h0' with h1 h2
  subst h2
  refine ⟨by simp, ?_, ?_⟩
  · intro v
    simp
  · intro a b
    simp

/-- Witness for C3 at `contendedState` (task 2's write lock is held). -/
theorem C3_witness :
    sched contendedState =
      Except.ok ({ contendedState with current_id := schedNid contendedState },
        [Event.loadCurrentId MemOrder.seqCst contendedState.current_id,
         Event.storeCurrentId MemOrder.release (schedNid contendedState),
         Event.tryReadLock contendedState.current_id true,
         Event.tryWriteLock (schedNid contendedState) false,
         Event.printk LogLevel.Critical
           ("sched: next(" ++ toString (schedNid contendedState)
              ++ ") lock failed\n\r")]) ∧
    (∀ s2 tr, sched contendedState = Except.ok (s2, tr) →
      Event.printk LogLevel.Critical
        ("sched: next(" ++ toString (schedNid contendedState)
           ++ ") lock failed\n\r") ∈ tr ∧
      (∀ v, Event.cr3Set v ∉ tr) ∧
      (∀ a b, Event.switchTo a b ∉ tr)) :=
  C3_next_lock_contention_skips_switch contendedState
    { pid := 1, cr3 := 100 } { pid := 2, cr3 := 200 }
    rfl (by decide) (by decide) rfl rfl rfl rfl

/-- C9: `sched` stores the new id `nid` into `CURRENT_ID` (trace position
1) before attempting to lock either task (trace positions 2 and 3); on an
invocation where the try-write lock on the next task fails, the completed
run leaves `CURRENT_ID` holding `nid` — the id of the task that was not
switched to (no switch event occurs) — while the running task is
unchanged. -/
theorem C9_store_precedes_locks_nid_kept_on_abort
    (s : KernState) (cur nxt : KTask)
    (hIF : s.iflag = false) (h0 : s.current_id ≠ 0)
    (hne : s.current_id ≠ schedNid s)
    (hcur : getTask s.tasks s.current_id = some cur)
    (hread : s.readBlocked.contains s.current_id = false)
    (hnxt : getTask s.tasks (schedNid s) = some nxt)
    (hwrite : s.writeBlocked.contains (schedNid s) = true) :
    ∃ tr, sched s = Except.ok ({ s with current_id := schedNid s }, tr) ∧
      tr.get? 1 = some (Event.storeCurrentId MemOrder.release (schedNid s)) ∧
      tr.get? 2 = some (Event.tryReadLock s.current_id true) ∧
      tr.get? 3 = some (Event.tryWriteLock (schedNid s) false) ∧
      (∀ a b, Event.switchTo a b ∉ tr) ∧
      ({ s with current_id := schedNid s } : KernState).running = s.running := by
  refine ⟨[Event.loadCurrentId MemOrder.seqCst s.current_id,
           Event.storeCurrentId MemOrder.release (schedNid s),
           Event.tryReadLock s.current_id true,
           Event.tryWriteLock (schedNid s) false,
           Event.printk LogLevel.Critical
             ("sched: next(" ++ toString (schedNid s) ++ ") lock failed\n\r")],
          ?_, rfl, rfl, rfl, ?_, rfl⟩
  · unfold sched
    rw [if_neg (by simp [hIF]), if_neg h0, if_neg hne]
    simp only [hcur]
    rw [if_neg (by rw [hread]; simp), if_neg (by simp [getTask_pid hcur])]
    simp only [hnxt]
    rw [if_pos hwrite]
  · intro a b
    simp

/-- Witness for C9 at `contendedState`. -/
theorem C9_witness :
    ∃ tr, sched contendedState =
        Except.ok ({ contendedState with current_id := schedNid contendedState },
          tr) ∧
      tr.get? 1 =
        some (Event.storeCurrentId MemOrder.release (schedNid contendedState)) ∧
      tr.get? 2 = some (Event.tryReadLock contendedState.current_id true) ∧
      tr.get? 3 =
        some (Event.tryWriteLock (schedNid contendedState) false) ∧
      (∀ a b, Event.switchTo a b ∉ tr) ∧
      ({ contendedState with current_id := schedNid contendedState }
          : KernState).running = contendedState.running :=
  C9_store_precedes_locks_nid_kept_on_abort contendedState
    { pid := 1, cr3 := 100 } { pid := 2, cr3 := 200 }
    rfl (by decide) (by decide) rfl rfl rfl rfl

/-- C7: every task id assigned by `alloc_kernel_task` or `alloc_task` is
the `next_id` at the time of the call and lies in [1, MAX_TASK) with
MAX_TASK = 64; each allocation increments `next_id` by exactly 1, so
consecutively assigned ids are strictly monotonically increasing; and an
allocation attempted when `next_id` has reached MAX_TASK panics on the
id-overflow assertion. -/
theorem C7_id_bounds_monotonicity_overflow
    (tl : TaskListSt) (h1 : 1 ≤ tl.next_id) :
    (∀ name rip a b c d e tl2 task mem,
        alloc_kernel_task tl name rip a b c d e = Except.ok (tl2, task, mem) →
        task.pid = tl.next_id ∧ 1 ≤ task.pid ∧ task.pid < MAX_TASK ∧
        tl2.next_id = tl.next_id + 1) ∧
    (∀ name parent rip a b c tl2 task mem,
        alloc_task tl name parent rip a b c = Except.ok (tl2, task, mem) →
        task.pid = tl.next_id ∧ 1 ≤ task.pid ∧ task.pid < MAX_TASK ∧
        tl2.next_id = tl.next_id + 1) ∧
    (tl.next_id = MAX_TASK →
      (∀ name rip a b c d e, alloc_kernel_task tl name rip a b c d e =
          Except.error "task id exceeds maximum boundary") ∧
      (∀ name parent rip a b c, alloc_task tl name parent rip a b c =
          Except.error "task id exceeds maximum boundary")) := by
  refine ⟨?_, ?_, ?_⟩
  · intro name rip a b c d e tl2 task mem hok
    unfold alloc_kernel_task at hok
    split at hok
    · injection hok with h0
      injection h0 with hA hB
      injection hB with hT hM
      subst hA
      subst hT
      exact ⟨rfl, h1, by assumption, rfl⟩
    · exact Except.noConfusion hok
  · intro name parent rip a b c tl2 task mem hok
    unfold alloc_task at hok
    split at hok
    · injection hok with h0
      injection h0 with hA hB
      injection hB with hT hM
      subst hA
      subst hT
      exact ⟨rfl, h1, by assumption, rfl⟩
    · exact Except.noConfusion hok
  · intro hmax
    constructor
    · intro name rip a b c d e
      unfold alloc_kernel_task
      rw [if_neg (by rw [hmax]; exact lt_irrefl MAX_TASK)]
    · intro name parent rip a b c
      unfold alloc_task
      rw [if_neg (by rw [hmax]; exact lt_irrefl MAX_TASK)]

/-- Witness for C7 at the initial task list (`next_id = 1`,
task.rs lines 165-170). -/
theorem C7_witness :
    (∀ name rip a b c d e tl2 task mem,
        alloc_kernel_task ⟨1, []⟩ name rip a b c d e =
          Except.ok (tl2, task, mem) →
        task.pid = (1 : Int) ∧ 1 ≤ task.pid ∧ task.pid < MAX_TASK ∧
        tl2.next_id = 1 + 1) ∧
    (∀ name parent rip a b c tl2 task mem,
        alloc_task ⟨1, []⟩ name parent rip a b c =
          Except.ok (tl2, task, mem) →
        task.pid = (1 : Int) ∧ 1 ≤ task.pid ∧ task.pid < MAX_TASK ∧
        tl2.next_id = 1 + 1) ∧
    ((1 : Int) = MAX_TASK →
      (∀ name rip a b c d e, alloc_kernel_task ⟨1, []⟩ name rip a b c d e =
          Except.error "task id exceeds maximum boundary") ∧
      (∀ name parent rip a b c, alloc_task ⟨1, []⟩ name parent rip a b c =
          Except.error "task id exceeds maximum boundary")) :=
  C7_id_bounds_monotonicity_overflow ⟨1, []⟩ (by decide)

/-- C8: the timer interrupt handler performs, in this order, the EOI
acknowledgement to the PIC for IRQ 0, the atomic increment of
`TIMER_TICKS` by 1 with sequentially consistent ordering, and the
invocation of `sched`: the trace of every completed run is the EOI event,
then the SeqCst fetch-add of 1, then exactly the trace of `sched` run on
the state with the incremented tick counter, and the final tick count is
one more than at entry. -/
theorem C8_timer_handler_eoi_tick_sched
    (s s2 : KernState) (tr : List Event)
    (hok : timer_handler s = Except.ok (s2, tr)) :
    ∃ trs, tr = Event.picEoi 0 :: Event.fetchAddTicks 1 MemOrder.seqCst :: trs ∧
      sched { s with ticks := s.ticks + 1 } = Except.ok (s2, trs) ∧
      s2.ticks = s.ticks + 1 := by
  unfold timer_handler at hok
  split at hok
  · exact Except.noConfusion hok
  · next s3 tr3 heq =>
      injection hok with h0
      injection h0 with h1 h2
      subst h1
      subst h2
      exact ⟨tr3, rfl, heq, by rw [sched_ticks heq]⟩

/-- Witness for C8 at `timerState` (a completing timer tick that also
switches address spaces). -/
theorem C8_witness :
    ∃ trs,
      ([Event.picEoi 0, Event.fetchAddTicks 1 MemOrder.seqCst,
        Event.loadCurrentId MemOrder.seqCst 2,
        Event.storeCurrentId MemOrder.release 1,
        Event.tryReadLock 2 true, Event.tryWriteLock 1 true,
        Event.cr3Set 100, Event.switchTo 2 1] : List Event) =
        Event.picEoi 0 :: Event.fetchAddTicks 1 MemOrder.seqCst :: trs ∧
      sched { timerState with ticks := timerState.ticks + 1 } =
        Except.ok ({ timerState with
          current_id := 1
          running := 1
          ticks := 42 }, trs) ∧
      ({ timerState with
          current_id := 1
          running := 1
          ticks := 42 } : KernState).ticks = timerState.ticks + 1 :=
  C8_timer_handler_eoi_tick_sched timerState
    { timerState with current_id := 1, running := 1, ticks := 42 }
    [Event.picEoi 0, Event.fetchAddTicks 1 MemOrder.seqCst,
     Event.loadCurrentId MemOrder.seqCst 2,
     Event.storeCurrentId MemOrder.release 1,
     Event.tryReadLock 2 true, Event.tryWriteLock 1 true,
     Event.cr3Set 100, Event.switchTo 2 1] rfl

/-- C4: a user task issuing `syscall` with a number in RAX and arguments
in RDI, RSI, RDX, R8, R9, R10 observes, on return to user mode, RAX and
the argument registers holding the values captured at entry (the only
handler, `sys_write`, does not mutate the saved context), the user RIP
and RFLAGS restored from the values captured from RCX and R11, and the
user RSP equal to the RBP value captured at entry plus 8; RCX and R11 are
clobbered by `sysret` — they carry the saved RIP and RFLAGS. -/
theorem C4_syscall_round_trip (kern_rsp : Nat) (cid : Int) (r : EntryRegs) :
    (syscall_entry kern_rsp cid r).2.2.rax = r.rax ∧
    (syscall_entry kern_rsp cid r).2.2.rdi = r.rdi ∧
    (syscall_entry kern_rsp cid r).2.2.rsi = r.rsi ∧
    (syscall_entry kern_rsp cid r).2.2.rdx = r.rdx ∧
    (syscall_entry kern_rsp cid r).2.2.r8 = r.r8 ∧
    (syscall_entry kern_rsp cid r).2.2.r9 = r.r9 ∧
    (syscall_entry kern_rsp cid r).2.2.r10 = r.r10 ∧
    (syscall_entry kern_rsp cid r).2.2.rip = r.rcx ∧
    (syscall_entry kern_rsp cid r).2.2.rflags = r.r11 ∧
    (syscall_entry kern_rsp cid r).2.2.rsp = r.rbp + 8 ∧
    (syscall_entry kern_rsp cid r).2.2.rcx = (captureSysctx r).rip ∧
    (syscall_entry kern_rsp cid r).2.2.r11 = (captureSysctx r).rflags :=
  ⟨rfl, rfl, rfl, rfl, rfl, rfl, rfl, rfl, rfl, rfl, rfl, rfl⟩

/-- Entry registers carrying syscall number 17 (not 16 = write). -/
def rax17Regs : EntryRegs :=
  { rax := 17, rdi := 1, rsi := 2, rdx := 3, r8 := 4, r9 := 5, r10 := 6,
    rcx := 4194304, r11 := 514, rbp := 524272 }

/-- C5 counterexample: with syscall number 17 in RAX — not 16 — the
syscall path still runs the write handler: the `sys_write` console and
log events appear in its trace, refuting that the handler runs exactly
when the number is 16. -/
theorem C5_counterexample :
    rax17Regs.rax ≠ 16 ∧
    Event.consoleWith 19 0 ∈ (syscall_entry 16384 4 rax17Regs).2.1 ∧
    Event.printk LogLevel.Info "sys_write: thread 4: rax 17\n\r" ∈
      (syscall_entry 16384 4 rax17Regs).2.1 := by
  exact ⟨by decide, by decide, by decide⟩

/-- C5 (amended): after switching RSP to the current task's kernel-stack
top and enabling interrupts, the syscall path runs the write handler
unconditionally, whatever number RAX holds — there is no dispatch on the
syscall number and no other handler; the handler reads the stored
`sysctx.rax` (equal to the RAX captured at entry) and logs
"sys_write: thread <id>: rax <value>" to tty line 19, after which
interrupts are disabled again. -/
theorem C5_sys_write_runs_unconditionally
    (kern_rsp : Nat) (cid : Int) (r : EntryRegs) :
    (syscall_entry kern_rsp cid r).2.1 =
      [Event.setRsp kern_rsp, Event.enableInterrupts,
       Event.consoleWith 19 0,
       Event.printk LogLevel.Info
         ("sys_write: thread " ++ toString cid ++ ": rax "
            ++ toString (syscall_entry kern_rsp cid r).1.rax ++ "\n\r"),
       Event.disableInterrupts] ∧
    (syscall_entry kern_rsp cid r).1.rax = r.rax :=
  ⟨rfl, rfl⟩

set_option maxHeartbeats 1600000 in
/-- C2: `alloc_kernel_task` primes the new task's 8 KiB kernel stack so
that, below the `TLSSegment { user_rsp = 0, kern_rsp = tlsbase }` written
at the stack top (`tlsbase = kern_rsp - 16`), the six 8-byte slots from
`tlsbase` downward hold, in order: the kernel data selector, `tlsbase`,
the task's rflags (0x0202), the kernel code selector, `entry_rip` and the
address of `start_task`; `ctx.rsp` is the address of the sixth slot,
`tlsbase - 48`; and the first switch into the task pops the address of
`start_task` whose `iretq` then consumes the frame
(`entry_rip`, kernel CS, rflags, `tlsbase`, kernel SS) — a synthetic
ring-0 return into `entry_rip`. -/
theorem C2_kernel_stack_priming
    (tl : TaskListSt) (name : String)
    (rip kern_rsp kernCr3 kern_ds kern_cs startTaskAddr : Nat)
    (hs : 64 ≤ kern_rsp)
    (tl2 : TaskListSt) (task : TaskRec) (mem : Nat → Nat)
    (hok : alloc_kernel_task tl name rip kern_rsp kernCr3 kern_ds kern_cs
      startTaskAddr = Except.ok (tl2, task, mem)) :
    mem (kern_rsp - 16) = 0 ∧
    mem (kern_rsp - 16 + 8) = kern_rsp - 16 ∧
    mem (kern_rsp - 16 - 8) = kern_ds ∧
    mem (kern_rsp - 16 - 16) = kern_rsp - 16 ∧
    mem (kern_rsp - 16 - 24) = task.ctx.rflags ∧
    task.ctx.rflags = 0x0202 ∧
    mem (kern_rsp - 16 - 32) = kern_cs ∧
    mem (kern_rsp - 16 - 40) = rip ∧
    mem (kern_rsp - 16 - 48) = startTaskAddr ∧
    task.ctx.rsp = kern_rsp - 16 - 48 ∧
    retThenIretq mem (kern_rsp - 16 - 48) =
      (startTaskAddr,
       { rip := rip, cs := kern_cs, rflags := 0x0202,
         old_rsp := kern_rsp - 16, old_ss := kern_ds }) := by
  unfold alloc_kernel_task at hok
  split at hok
  · injection hok with h0
    injection h0 with hA hB
    injection hB with hT hM
    subst hT
    subst hM
    refine ⟨?_, ?_, ?_, ?_, ?_, rfl, ?_, ?_, ?_, ?_, ?_⟩
    · simp only [store, tlsSegmentSize]
      split_ifs <;> first | rfl | (exfalso; omega)
    · simp only [store, tlsSegmentSize]
      split_ifs <;> first | rfl | (exfalso; omega)
    · simp only [store, tlsSegmentSize]
      split_ifs <;> first | rfl | (exfalso; omega)
    · simp only [store, tlsSegmentSize]
      split_ifs <;> first | rfl | (exfalso; omega)
    · simp only [store, tlsSegmentSize]
      split_ifs <;> first | rfl | (exfalso; omega)
    · simp only [store, tlsSegmentSize]
      split_ifs <;> first | rfl | (exfalso; omega)
    · simp only [store, tlsSegmentSize]
      split_ifs <;> first | rfl | (exfalso; omega)
    · simp only [store, tlsSegmentSize]
      split_ifs <;> first | rfl | (exfalso; omega)
    · show kern_rsp - tlsSegmentSize - exceptionStackFrameSize - usizeSize
          = kern_rsp - 16 - 48
      simp only [tlsSegmentSize, exceptionStackFrameSize, usizeSize]
      omega
    · simp only [retThenIretq, store, tlsSegmentSize, Prod.mk.injEq,
        ExceptionStackFrame.mk.injEq]
      refine ⟨?_, ?_, ?_, ?_, ?_, ?_⟩ <;>
        (split_ifs <;> first | rfl | (exfalso; omega))
  · exact Except.noConfusion hok

/-- Witness inputs for C2: the initial task list, a stack whose top is at
address 16384, kernel page-table root 7, selectors 16 (data) and 8
(code), `start_task` at 5555, entry point 1000. -/
def c2task : TaskRec :=
  { pid := 1, ppid := 0, name := "idle", state := TaskState.Created,
    ctx := { rflags := 514, cr3 := 7, rbp := 0, rbx := 0, rsp := 16320,
             r12 := 0, r13 := 0, r14 := 0, r15 := 0 } }

/-- The primed stack memory `alloc_kernel_task` builds for the C2 witness
inputs. -/
def c2mem : Nat → Nat :=
  store (store (store (store (store (store (store (store (fun _ => 0)
    16368 0) 16376 16368) 16360 16) 16352 16368) 16344 514) 16336 8)
    16328 1000) 16320 5555

/-- Witness for C2 at the concrete inputs of `c2task`/`c2mem`. -/
theorem C2_witness :
    c2mem 16368 = 0 ∧
    c2mem 16376 = 16368 ∧
    c2mem 16360 = 16 ∧
    c2mem 16352 = 16368 ∧
    c2mem 16344 = c2task.ctx.rflags ∧
    c2task.ctx.rflags = 514 ∧
    c2mem 16336 = 8 ∧
    c2mem 16328 = 1000 ∧
    c2mem 16320 = 5555 ∧
    c2task.ctx.rsp = 16320 ∧
    retThenIretq c2mem 16320 =
      (5555, { rip := 1000, cs := 8, rflags := 514,
               old_rsp := 16368, old_ss := 16 }) :=
  C2_kernel_stack_priming ⟨1, []⟩ "idle" 1000 16384 7 16 8 5555
    (by decide) ⟨2, [1]⟩ c2task c2mem rfl

end Sos2
